import Mathlib

/-!
Shallow embedding of the deployment script `fabfile.py` (django-deploy).

The script sequences remote shell commands; we model each issued command as
a constructor of `Step`, each workflow as a function from its configuration
and prompt answers to the list of commands it issues, the list of questions
it asks, and whether it finished without a fatal abort.  The string
processing in `backup_database` (Python `str.find`, `str.split(c, 1)` and
`str.strip`) is embedded directly on character lists.
-/

namespace Fabfile

/-- Python truthiness of the `CACHE_CLEAR_MODELS` configuration value:
`None` and the empty string are falsy, any other string is truthy. -/
def cacheModelsTruthy : Option String → Bool
  | none => false
  | some s => !(s == "")

/-- Whether `pat` occurs at the head of `s` (both as character lists). -/
def startsWithL : List Char → List Char → Bool
  | [], _ => true
  | _ :: _, [] => false
  | p :: ps, c :: cs => p == c && startsWithL ps cs

/-- Index of the first occurrence of `pat` in the remaining characters,
counting from `i`; `none` when `pat` does not occur. -/
def findAux (pat : List Char) : List Char → Nat → Option Nat
  | [], i => if startsWithL pat [] then some i else none
  | c :: t, i => if startsWithL pat (c :: t) then some i else findAux pat t (i + 1)

/-- Python `s.find(pat)`: the lowest index where `pat` occurs in `s`,
and `-1` when it does not occur. -/
def pyFind (s pat : String) : Int :=
  match findAux pat.data s.data 0 with
  | some n => (n : Int)
  | none => -1

/-- Python `pat in s`: whether `pat` occurs as a substring of `s`. -/
def pyContains (s pat : String) : Bool :=
  (findAux pat.data s.data 0).isSome

/-- The characters after the first occurrence of `c`, as in the second
component of Python `s.split(c, 1)`; `none` when `c` does not occur
(in Python, indexing `[1]` would then raise). -/
def afterFirstChar (c : Char) : List Char → Option (List Char)
  | [] => none
  | a :: t => if a == c then some t else afterFirstChar c t

/-- Whitespace stripped by Python `str.strip` (ASCII range). -/
def pyIsSpace (c : Char) : Bool :=
  c == ' ' || c == '\t' || c == '\n' || c == '\x0d' || c == '\x0b' || c == '\x0c'

/-- Python `str.strip`: drop whitespace from both ends. -/
def pyStrip (s : List Char) : List Char :=
  ((s.dropWhile pyIsSpace).reverse.dropWhile pyIsSpace).reverse

/-- The success marker that the backup command must print. -/
def backupMarker : String := "successfully backed up to:"

/-- Embedding of `ProjectEnvironment.backup_database` output handling:
given the remote command result (`succeeded` flag plus captured `output`),
the method asserts `result.succeeded and result.find(marker) > 0` and then
returns `result.split(c, 1)[1].strip()` for the colon character.
`none` models the fatal assertion failure. -/
def backup_database (succeeded : Bool) (output : String) : Option String :=
  if succeeded = true ∧ 0 < pyFind output backupMarker then
    (afterFirstChar ':' output.data).map (fun rest => String.mk (pyStrip rest))
  else none

/-- One remote-effecting (or local-effecting, for `fetch_data`) command
issued by the script, tagged with the environment name it acts on. -/
inductive Step where
  | gitPull (env : String)
  | cacheClear (env : String)
  | dbBackup (env : String)
  | dbClear (env : String)
  | dbLoad (env : String)
  | mvUploads (env : String)
  | cpUploads (src dst : String)
  | rmUploadsBak (env : String)
  | rdiffBackupUploads (env : String)
  | migrate (env : String)
  | touchWsgi (env : String)
  | getFile (env : String)
  | localDbClear
  | localDbLoad
  | localRdiffRestore (host : String)
deriving DecidableEq

/-- Result of running a workflow: the commands issued in order, the
questions asked in order, and whether the workflow finished without a
fatal abort. -/
structure Trace where
  steps : List Step
  prompts : List String
  ok : Bool
deriving DecidableEq

/-- A single-quote character, used by the prompt format strings. -/
def sq : String := String.mk ['\x27']

/-- `s` wrapped in single quotes, as `%s` appears in the prompt format
strings of the source. -/
def quoted (s : String) : String := sq ++ s ++ sq

/-- The first question of `reset_data_from`, formatted from
`(self.name, other_env.name)`. -/
def resetQuestion (selfName otherName : String) : String :=
  "Reset database " ++ quoted selfName ++ " content from " ++ quoted otherName ++ "?"

/-- The second question of `reset_data_from`, formatted from
`(self.name, other_env.name)`: the receiving environment is printed first. -/
def copyQuestion (selfName otherName : String) : String :=
  "Copy media files from " ++ quoted selfName ++ " to " ++ quoted otherName ++ "?"

/-- Embedding of `ProjectEnvironment.clear_cache`: issue the cache-clear
command when `CACHE_CLEAR_MODELS` is truthy, otherwise only print a log
message.  Returns the issued commands and the printed messages. -/
def clear_cache (models : Option String) (envName : String) :
    List Step × List String :=
  if cacheModelsTruthy models = true then
    ([Step.cacheClear envName], ["Clearing cache"])
  else
    ([], ["CACHE_CLEAR_MODELS is empty, not clearing cache"])

/-- Embedding of `ProjectEnvironment.reset_data_from` for a receiver named
`selfName` and argument environment named `otherName`.  `resetAns` and
`copyAns` are the answers to the two confirmation prompts; `backupOk` is
whether the backup command succeeds with well-formed output (when it does
not, the assertion in `backup_database` aborts the workflow fatally). -/
def reset_data_from (models : Option String) (selfName otherName : String)
    (resetAns copyAns backupOk : Bool) : Trace :=
  if resetAns = false then
    ⟨[], [resetQuestion selfName otherName], true⟩
  else
    let cache := (clear_cache models selfName).1
    let t1 := cache ++ [Step.dbBackup otherName]
    if backupOk = false then
      ⟨t1, [resetQuestion selfName otherName], false⟩
    else
      let t2 := t1 ++ [Step.dbClear selfName, Step.dbLoad selfName]
      if copyAns = false then
        ⟨t2, [resetQuestion selfName otherName, copyQuestion selfName otherName], true⟩
      else
        ⟨t2 ++ [Step.mvUploads selfName, Step.cpUploads otherName selfName,
                Step.rmUploadsBak selfName],
         [resetQuestion selfName otherName, copyQuestion selfName otherName], true⟩

/-- Embedding of the `deploy` task.  For variant `stage` the data-sync
workflow is run from `live` into `stage`; for variant `live` two backup
prompts are asked (`ans1`: database, `ans2`: uploads).  Any other variant
raises a lookup error in the environment registry, modelled as `none`. -/
def deploy (models : Option String) (variant : String)
    (ans1 ans2 backupOk : Bool) : Option Trace :=
  if variant = "stage" then
    let r := reset_data_from models "stage" "live" ans1 ans2 backupOk
    if r.ok = true then
      some ⟨Step.gitPull "stage" :: r.steps ++ [Step.migrate "stage", Step.touchWsgi "stage"],
            r.prompts, true⟩
    else
      some ⟨Step.gitPull "stage" :: r.steps, r.prompts, false⟩
  else if variant = "live" then
    if ans1 = true then
      if backupOk = true then
        some ⟨Step.gitPull "live" :: Step.dbBackup "live" ::
                (if ans2 = true then [Step.rdiffBackupUploads "live"] else []) ++
                [Step.migrate "live", Step.touchWsgi "live"],
              ["Backup dabase?", "Backup uploads?"], true⟩
      else
        some ⟨[Step.gitPull "live", Step.dbBackup "live"], ["Backup dabase?"], false⟩
    else
      some ⟨Step.gitPull "live" ::
              (if ans2 = true then [Step.rdiffBackupUploads "live"] else []) ++
              [Step.migrate "live", Step.touchWsgi "live"],
            ["Backup dabase?", "Backup uploads?"], true⟩
  else none

/-- The question asked by `fetch_data` before touching the local database. -/
def localResetQuestion (variant : String) : String :=
  "Reset local database content from " ++ quoted variant ++ "?"

/-- The characters before the first occurrence of `c`, as in the first
component of Python `s.split(c, 1)`. -/
def beforeFirstChar (c : Char) : List Char → List Char
  | [] => []
  | a :: t => if a == c then [] else a :: beforeFirstChar c t

/-- Embedding of the `fetch_data` task for the environment named `variant`
and the configured host list.  It aborts at once unless exactly one host is
configured; then it backs up the remote database and uploads, downloads the
database dump, and only then asks the two prompts in sequence, returning
early when the first is declined. -/
def fetch_data (variant : String) (hosts : List String)
    (resetAns uploadsAns backupOk : Bool) : Trace :=
  if hosts.length ≠ 1 then ⟨[], [], false⟩
  else if backupOk = false then
    ⟨[Step.dbBackup variant], [], false⟩
  else
    let t1 := [Step.dbBackup variant, Step.rdiffBackupUploads variant, Step.getFile variant]
    if resetAns = false then
      ⟨t1, [localResetQuestion variant], true⟩
    else
      let t2 := t1 ++ [Step.localDbClear, Step.localDbLoad]
      if uploadsAns = false then
        ⟨t2, [localResetQuestion variant, "Fetch uploads as well?"], true⟩
      else
        ⟨t2 ++ [Step.localRdiffRestore
                  (String.mk (beforeFirstChar ':' (hosts.headD "").data))],
         [localResetQuestion variant, "Fetch uploads as well?"], true⟩

lemma pyFind_of_not_contains (s pat : String) (h : pyContains s pat = false) :
    pyFind s pat = -1 := by
  unfold pyContains at h
  unfold pyFind
  cases hf : findAux pat.data s.data 0 with
  | none => rfl
  | some n => rw [hf] at h; simp at h

/-- Claim C2: for every result of the remote backup command,
`backup_database` fails fatally (assertion error, modelled as `none`)
whenever the output does not contain the marker substring
"successfully backed up to:" or the command reports failure; and whenever
it does return a value, that value is exactly the substring of the output
after the first colon with surrounding whitespace stripped. -/
theorem backup_database_contract (succeeded : Bool) (output : String) :
    ((pyContains output backupMarker = false ∨ succeeded = false) →
      backup_database succeeded output = none) ∧
    (∀ r, backup_database succeeded output = some r →
      ∃ rest, afterFirstChar ':' output.data = some rest ∧
        r = String.mk (pyStrip rest)) := by
  constructor
  · intro h
    unfold backup_database
    rcases h with h | h
    · rw [pyFind_of_not_contains output backupMarker h]
      simp
    · simp [h]
  · intro r hr
    unfold backup_database at hr
    split at hr
    · rcases Option.map_eq_some'.mp hr with ⟨rest, hrest, hval⟩
      exact ⟨rest, hrest, hval.symm⟩
    · exact absurd hr (by simp)

/-- Witness for C2: a concrete output without the marker is rejected, a
failed command is rejected, and a concrete well-formed output yields the
trimmed path after the first colon. -/
theorem backup_database_contract_check :
    backup_database true "backup failed for some reason" = none ∧
    backup_database false "db successfully backed up to: /b/f.db" = none ∧
    backup_database true "db successfully backed up to: /b/f.db" = some "/b/f.db" := by
  refine ⟨?_, ?_, ?_⟩
  · exact (backup_database_contract true "backup failed for some reason").1
      (Or.inl (by decide))
  · exact (backup_database_contract false "db successfully backed up to: /b/f.db").1
      (Or.inr rfl)
  · decide

/-- Claim C9: the assertion in `backup_database` requires the marker to
occur at a strictly positive index, so an output that begins with the
marker is rejected even though the marker is present. -/
theorem backup_marker_at_index_zero_fails :
    backup_database true "successfully backed up to: /b/f.db" = none ∧
    pyContains "successfully backed up to: /b/f.db" backupMarker = true ∧
    pyFind "successfully backed up to: /b/f.db" backupMarker = 0 := by
  decide

/-- Claim C1: in `reset_data_from`, declining the first prompt makes the
whole operation a no-op (no cache-clear, backup, database-clear,
database-load or upload-directory command is issued, and it returns
normally); and declining the second prompt means no upload-directory
rename, copy or delete command is ever issued, whatever the other answers
and the backup outcome. -/
theorem reset_data_from_declined_prompts_no_mutation (models : Option String)
    (selfName otherName : String) (copyAns backupOk : Bool) :
    (reset_data_from models selfName otherName false copyAns backupOk).steps = [] ∧
    (reset_data_from models selfName otherName false copyAns backupOk).ok = true ∧
    ∀ (resetAns bOk : Bool) (src dst : String),
      Step.mvUploads dst ∉
        (reset_data_from models selfName otherName resetAns false bOk).steps ∧
      Step.cpUploads src dst ∉
        (reset_data_from models selfName otherName resetAns false bOk).steps ∧
      Step.rmUploadsBak dst ∉
        (reset_data_from models selfName otherName resetAns false bOk).steps := by
  refine ⟨rfl, rfl, ?_⟩
  intro resetAns bOk src dst
  cases resetAns <;> cases bOk <;>
    simp [reset_data_from, clear_cache] <;>
    split <;> simp_all

/-- Claim C6: `clear_cache` issues the remote cache-clear command exactly
when `CACHE_CLEAR_MODELS` is non-null and non-empty; otherwise it issues
no command and only prints a log message. -/
theorem clear_cache_gated_on_models (models : Option String) (envName : String) :
    (Step.cacheClear envName ∈ (clear_cache models envName).1 ↔
      cacheModelsTruthy models = true) ∧
    (cacheModelsTruthy models = false →
      (clear_cache models envName).1 = [] ∧
      (clear_cache models envName).2 =
        ["CACHE_CLEAR_MODELS is empty, not clearing cache"]) ∧
    (cacheModelsTruthy models = true ↔ models ≠ none ∧ models ≠ some "") := by
  refine ⟨?_, ?_, ?_⟩
  · unfold clear_cache
    split <;> simp_all
  · intro h
    unfold clear_cache
    simp [h]
  · cases models with
    | none => simp [cacheModelsTruthy]
    | some s => simp [cacheModelsTruthy]

/-- Witness for C6: with a null configuration no command is issued and the
log message is printed; with the concrete model list "news" the cache-clear
command is issued. -/
theorem clear_cache_gated_on_models_check :
    (clear_cache none "stage").1 = [] ∧
    (clear_cache none "stage").2 =
      ["CACHE_CLEAR_MODELS is empty, not clearing cache"] ∧
    Step.cacheClear "live" ∈ (clear_cache (some "news") "live").1 := by
  refine ⟨((clear_cache_gated_on_models none "stage").2.1 rfl).1,
          ((clear_cache_gated_on_models none "stage").2.1 rfl).2,
          (clear_cache_gated_on_models (some "news") "live").1.mpr (by decide)⟩

/-- Claim C7 (code bug evidence): with target environment "stage" being
reset from source environment "live", the second confirmation question is
formatted from `(self.name, other_env.name)` and therefore reads
"Copy media files from (stage) to (live)?", naming the target as the
origin and the source as the destination, while the gated copy command
actually copies the upload tree of "live" into "stage". -/
theorem copy_prompt_contradicts_copy_direction :
    (reset_data_from none "stage" "live" true true true).prompts =
      [resetQuestion "stage" "live", copyQuestion "stage" "live"] ∧
    copyQuestion "stage" "live" =
      "Copy media files from " ++ quoted "stage" ++ " to " ++ quoted "live" ++ "?" ∧
    Step.cpUploads "live" "stage" ∈
      (reset_data_from none "stage" "live" true true true).steps ∧
    Step.cpUploads "stage" "live" ∉
      (reset_data_from none "stage" "live" true true true).steps := by
  decide

/-- Claim C3: deploying variant "stage" with every confirmation prompt
answered yes (and the configured cache-model list truthy, as the scenario
presupposes a cache-clear step, with all remote commands succeeding) issues
exactly, in order: source pull, cache-clear, backup of the live database,
clear of the stage database, load of the backup into the stage database,
upload-directory rename, copy and cleanup (the three shell commands of the
single uploads-swap step), database migration, and process reload — eight
remote-effecting steps in the counting of the claim, where the
rename+copy+cleanup triple is one step. -/
theorem deploy_stage_all_yes_trace (models : Option String)
    (hm : cacheModelsTruthy models = true) :
    deploy models "stage" true true true =
      some ⟨[Step.gitPull "stage", Step.cacheClear "stage", Step.dbBackup "live",
             Step.dbClear "stage", Step.dbLoad "stage",
             Step.mvUploads "stage", Step.cpUploads "live" "stage",
             Step.rmUploadsBak "stage",
             Step.migrate "stage", Step.touchWsgi "stage"],
            [resetQuestion "stage" "live", copyQuestion "stage" "live"], true⟩ := by
  simp [deploy, reset_data_from, clear_cache, hm]

/-- Witness for C3 at the concrete configuration `CACHE_CLEAR_MODELS`
set to "news". -/
theorem deploy_stage_all_yes_trace_check :
    deploy (some "news") "stage" true true true =
      some ⟨[Step.gitPull "stage", Step.cacheClear "stage", Step.dbBackup "live",
             Step.dbClear "stage", Step.dbLoad "stage",
             Step.mvUploads "stage", Step.cpUploads "live" "stage",
             Step.rmUploadsBak "stage",
             Step.migrate "stage", Step.touchWsgi "stage"],
            [resetQuestion "stage" "live", copyQuestion "stage" "live"], true⟩ :=
  deploy_stage_all_yes_trace (some "news") (by decide)

/-- Claim C4: deploying variant "live" with both backup prompts answered no
issues exactly pull, migrate, reload — three steps, with no database backup
and no uploads backup; and the two backup prompts are independent: with all
commands succeeding, the database backup appears in the trace exactly when
the first prompt is answered yes, and the uploads backup exactly when the
second prompt is answered yes. -/
theorem deploy_live_backup_prompts (models : Option String) :
    deploy models "live" false false true =
      some ⟨[Step.gitPull "live", Step.migrate "live", Step.touchWsgi "live"],
            ["Backup dabase?", "Backup uploads?"], true⟩ ∧
    ∀ (a1 a2 : Bool) (t : Trace), deploy models "live" a1 a2 true = some t →
      (Step.dbBackup "live" ∈ t.steps ↔ a1 = true) ∧
      (Step.rdiffBackupUploads "live" ∈ t.steps ↔ a2 = true) := by
  constructor
  · simp [deploy]
  · intro a1 a2 t ht
    cases a1 <;> cases a2 <;>
      simp [deploy] at ht <;> simp [← ht]

/-- Witness for C4: the three-step trace at a null cache configuration, and
the two mixed prompt combinations showing the independence of the backups. -/
theorem deploy_live_backup_prompts_check :
    deploy none "live" false false true =
      some ⟨[Step.gitPull "live", Step.migrate "live", Step.touchWsgi "live"],
            ["Backup dabase?", "Backup uploads?"], true⟩ ∧
    (Step.dbBackup "live" ∈
        (Trace.mk [Step.gitPull "live", Step.dbBackup "live",
          Step.migrate "live", Step.touchWsgi "live"]
          ["Backup dabase?", "Backup uploads?"] true).steps ↔ true = true) ∧
    (Step.rdiffBackupUploads "live" ∈
        (Trace.mk [Step.gitPull "live", Step.rdiffBackupUploads "live",
          Step.migrate "live", Step.touchWsgi "live"]
          ["Backup dabase?", "Backup uploads?"] true).steps ↔ true = true) :=
  ⟨(deploy_live_backup_prompts none).1,
   ((deploy_live_backup_prompts none).2 true false _ (by decide)).1,
   ((deploy_live_backup_prompts none).2 false true _ (by decide)).2⟩

/-- Claim C5: for every host list with more than one entry, `fetch_data`
aborts fatally before issuing any remote or local command and before
asking any question, whatever the prompt answers and the backup outcome. -/
theorem fetch_data_multi_host_aborts (variant : String) (hosts : List String)
    (h : 1 < hosts.length) (a1 a2 bOk : Bool) :
    fetch_data variant hosts a1 a2 bOk = ⟨[], [], false⟩ := by
  unfold fetch_data
  rw [if_pos]
  omega

/-- Witness for C5 at the concrete two-host list. -/
theorem fetch_data_multi_host_aborts_check :
    fetch_data "live" ["user@h1", "user@h2"] true true true = ⟨[], [], false⟩ :=
  fetch_data_multi_host_aborts "live" ["user@h1", "user@h2"] (by decide) true true true

/-- Claim C8: the guard in `fetch_data` tests that the host count differs
from one, so it aborts fatally before any work not only for more than one
host but for any count other than exactly one — in particular for zero
hosts. -/
theorem fetch_data_requires_exactly_one_host (variant : String)
    (a1 a2 bOk : Bool) (hosts : List String) (h : hosts.length ≠ 1) :
    fetch_data variant hosts a1 a2 bOk = ⟨[], [], false⟩ := by
  unfold fetch_data
  rw [if_pos h]

/-- Witness for C8 at the empty host list. -/
theorem fetch_data_requires_exactly_one_host_check :
    fetch_data "stage" [] true true true = ⟨[], [], false⟩ :=
  fetch_data_requires_exactly_one_host "stage" true true true [] (by decide)

/-- Claim C10: in `fetch_data` the two prompts are not independent: when
the local-database-reset prompt is declined the task returns at once, so
the uploads prompt is never asked and no local uploads restore is issued;
and the remote database backup, the remote uploads backup and the database
download have already been issued at that point, whatever either prompt
answers (with the backup command succeeding). -/
theorem fetch_data_prompts_dependent (variant hostA : String) (a2 : Bool) :
    (fetch_data variant [hostA] false a2 true).prompts =
      [localResetQuestion variant] ∧
    (fetch_data variant [hostA] false a2 true).steps =
      [Step.dbBackup variant, Step.rdiffBackupUploads variant, Step.getFile variant] ∧
    (fetch_data variant [hostA] false a2 true).ok = true ∧
    (∀ hostB, Step.localRdiffRestore hostB ∉
      (fetch_data variant [hostA] false a2 true).steps) ∧
    ∀ b1 b2 : Bool, (fetch_data variant [hostA] b1 b2 true).steps.take 3 =
      [Step.dbBackup variant, Step.rdiffBackupUploads variant, Step.getFile variant] := by
  refine ⟨rfl, rfl, rfl, by simp [fetch_data], ?_⟩
  intro b1 b2
  cases b1 <;> cases b2 <;> simp [fetch_data]

end Fabfile
